import Mathlib

/-!
# Verification of the `Matrix4` core of gfx.ts

Shallow embedding of `src/src/math/matrix4.ts`.  A `Matrix4` owns a
16-entry column-major buffer (`_val : number[]`, index `4*col + row`),
modelled here as a 16-field record `Buf` whose field `ek` is `_val[k]`,
over `ℚ` (exact arithmetic standing in for IEEE doubles; the claims
below are about the exact index bookkeeping and formula structure of
the source).  Heap-mutating operations are modelled over a small store
of instances addressed by `Nat` ids, so that aliasing of the optional
`result` parameter with the receiver or an argument is expressible; a
thrown `Error` is modelled as a `some msg` outcome alongside the
post-state of the heap (a JavaScript `throw` does not roll back earlier
writes, so atomicity is a provable property, not a modelling artifact).
The real-valued geometry (projection, PRS compose/decompose, which use
`Math.tan` / `Math.sqrt`) is embedded over `ℝ` further below.
-/

namespace Gfx

/-- The 16-value column-major buffer of a `Matrix4` (`_val`); field `ek`
holds `_val[k]`, i.e. the entry at row `k % 4`, column `k / 4`. -/
structure Buf (α : Type) where
  e0 : α
  e1 : α
  e2 : α
  e3 : α
  e4 : α
  e5 : α
  e6 : α
  e7 : α
  e8 : α
  e9 : α
  e10 : α
  e11 : α
  e12 : α
  e13 : α
  e14 : α
  e15 : α
deriving DecidableEq

/-- A heap of `Matrix4` instances, addressed by instance id.  Mutating
methods update the buffer of one id and leave the others untouched. -/
abbrev Store := Nat → Buf ℚ

namespace Matrix4

/-- The buffer set up by `constructor()` and by `identity()`:
`[1,0,0,0, 0,1,0,0, 0,0,1,0, 0,0,0,1]` (matrix4.ts lines 44-52, 561-570). -/
def identityBuf : Buf ℚ :=
  ⟨1, 0, 0, 0, 0, 1, 0, 0, 0, 0, 1, 0, 0, 0, 0, 1⟩

end Matrix4

/-- The serialisation record `Matrix4Json`: 16 named fields `m{row}{col}`
(matrix4.ts lines 8-32), field order as declared in the interface. -/
structure Matrix4Json where
  m00 : ℚ
  m10 : ℚ
  m20 : ℚ
  m30 : ℚ
  m01 : ℚ
  m11 : ℚ
  m21 : ℚ
  m31 : ℚ
  m02 : ℚ
  m12 : ℚ
  m22 : ℚ
  m32 : ℚ
  m03 : ℚ
  m13 : ℚ
  m23 : ℚ
  m33 : ℚ
deriving DecidableEq

namespace Matrix4

/-- `serialise()` (matrix4.ts lines 58-83): buffer index `4*col+row` goes to
field `m{row}{col}`. -/
def serialise (m : Buf ℚ) : Matrix4Json where
  m00 := m.e0
  m10 := m.e1
  m20 := m.e2
  m30 := m.e3
  m01 := m.e4
  m11 := m.e5
  m21 := m.e6
  m31 := m.e7
  m02 := m.e8
  m12 := m.e9
  m22 := m.e10
  m32 := m.e11
  m03 := m.e12
  m13 := m.e13
  m23 := m.e14
  m33 := m.e15

/-- `set(m00, m01, ..., m33)` (matrix4.ts lines 468-501): writes the 16
arguments into the buffer, `m{row}{col}` at index `4*col+row`.  All 16
indices are assigned, so the receiver's previous buffer is irrelevant. -/
def set (m00 m01 m02 m03 m10 m11 m12 m13 m20 m21 m22 m23 m30 m31 m32 m33 : ℚ) : Buf ℚ :=
  ⟨m00, m10, m20, m30, m01, m11, m21, m31, m02, m12, m22, m32, m03, m13, m23, m33⟩

/-- Instance `deserialise(values)` (matrix4.ts lines 99-106): calls `set`
with the named fields in row-major argument order. -/
def deserialise (values : Matrix4Json) : Buf ℚ :=
  set values.m00 values.m01 values.m02 values.m03
      values.m10 values.m11 values.m12 values.m13
      values.m20 values.m21 values.m22 values.m23
      values.m30 values.m31 values.m32 values.m33

/-- Static `Matrix4.deserialise(values)` (matrix4.ts lines 90-92): constructs
a fresh instance (identity buffer) and runs the instance `deserialise` on it,
which overwrites every entry. -/
def deserialiseStatic (values : Matrix4Json) : Buf ℚ :=
  deserialise values

/-- The write phase of static `Matrix4.multiply(a, b, result)` (matrix4.ts
lines 421-458).  The source first caches all 32 operand entries in locals
(`a11..a44`, `b11..b44`, lines 427-435) and only then stores into
`result._val` (lines 437-455); no store reads `result._val`, so the 16
stores are modelled as one record built from the cached locals (field `ek`
is the store `r[k]`). -/
def multiplyVals (av bv : Buf ℚ) : Buf ℚ :=
  let a11 := av.e0; let a12 := av.e4; let a13 := av.e8; let a14 := av.e12
  let a21 := av.e1; let a22 := av.e5; let a23 := av.e9; let a24 := av.e13
  let a31 := av.e2; let a32 := av.e6; let a33 := av.e10; let a34 := av.e14
  let a41 := av.e3; let a42 := av.e7; let a43 := av.e11; let a44 := av.e15
  let b11 := bv.e0; let b12 := bv.e4; let b13 := bv.e8; let b14 := bv.e12
  let b21 := bv.e1; let b22 := bv.e5; let b23 := bv.e9; let b24 := bv.e13
  let b31 := bv.e2; let b32 := bv.e6; let b33 := bv.e10; let b34 := bv.e14
  let b41 := bv.e3; let b42 := bv.e7; let b43 := bv.e11; let b44 := bv.e15
  { e0 := a11 * b11 + a12 * b21 + a13 * b31 + a14 * b41
    e4 := a11 * b12 + a12 * b22 + a13 * b32 + a14 * b42
    e8 := a11 * b13 + a12 * b23 + a13 * b33 + a14 * b43
    e12 := a11 * b14 + a12 * b24 + a13 * b34 + a14 * b44
    e1 := a21 * b11 + a22 * b21 + a23 * b31 + a24 * b41
    e5 := a21 * b12 + a22 * b22 + a23 * b32 + a24 * b42
    e9 := a21 * b13 + a22 * b23 + a23 * b33 + a24 * b43
    e13 := a21 * b14 + a22 * b24 + a23 * b34 + a24 * b44
    e2 := a31 * b11 + a32 * b21 + a33 * b31 + a34 * b41
    e6 := a31 * b12 + a32 * b22 + a33 * b32 + a34 * b42
    e10 := a31 * b13 + a32 * b23 + a33 * b33 + a34 * b43
    e14 := a31 * b14 + a32 * b24 + a33 * b34 + a34 * b44
    e3 := a41 * b11 + a42 * b21 + a43 * b31 + a44 * b41
    e7 := a41 * b12 + a42 * b22 + a43 * b32 + a44 * b42
    e11 := a41 * b13 + a42 * b23 + a43 * b33 + a44 * b43
    e15 := a41 * b14 + a42 * b24 + a43 * b34 + a44 * b44 }

/-- Static `Matrix4.multiply(a, b, result)` at the store level (matrix4.ts
lines 421-458): first caches `a._val` and `b._val` (the heap is read only
before the writes begin), then overwrites `result._val`, and returns
`result`. -/
def staticMultiply (a b result : Nat) (σ : Store) : Store × Nat :=
  let av := σ a
  let bv := σ b
  (Function.update σ result (multiplyVals av bv), result)

/-- Instance `multiply(matrix, optresult)` (matrix4.ts lines 395-399):
`result = optresult || this`, then delegates to `Matrix4.multiply(this,
matrix, result)` and returns its value. -/
def multiplyMethod (self matrix : Nat) (optresult : Option Nat) (σ : Store) : Store × Nat :=
  let result := optresult.getD self
  staticMultiply self matrix result σ

/-- Instance `preMultiply(matrix, optresult)` (matrix4.ts lines 408-412):
`result = optresult || this`, then delegates to `Matrix4.multiply(matrix,
this, result)` and returns its value. -/
def preMultiplyMethod (self matrix : Nat) (optresult : Option Nat) (σ : Store) : Store × Nat :=
  let result := optresult.getD self
  staticMultiply matrix self result σ

/-- `scale(scale, optresult)` (matrix4.ts lines 356-386): `result = optresult
|| this`, then `m = result._val` and each `m[i]` is overwritten with
`m[i] * scale` — the entries being multiplied are read from `result`'s own
buffer, not from the receiver's.  Returns `result`. -/
def scaleMethod (self : Nat) (factor : ℚ) (optresult : Option Nat) (σ : Store) : Store × Nat :=
  let result := optresult.getD self
  let m := σ result
  (Function.update σ result
    ⟨m.e0 * factor, m.e1 * factor, m.e2 * factor, m.e3 * factor,
     m.e4 * factor, m.e5 * factor, m.e6 * factor, m.e7 * factor,
     m.e8 * factor, m.e9 * factor, m.e10 * factor, m.e11 * factor,
     m.e12 * factor, m.e13 * factor, m.e14 * factor, m.e15 * factor⟩,
   result)

/-- `get determinant()` (matrix4.ts lines 674-686): closed-form cofactor
expansion of the 4×4 determinant, 24 signed quadruple products in the
source's term order; pure function of the current buffer. -/
def determinant (m : Buf ℚ) : ℚ :=
  m.e3 * m.e6 * m.e9 * m.e12 - m.e2 * m.e7 * m.e9 * m.e12 - m.e3 * m.e5
    * m.e10 * m.e12 + m.e1 * m.e7 * m.e10 * m.e12 + m.e2 * m.e5 * m.e11 * m.e12 - m.e1
    * m.e6 * m.e11 * m.e12 - m.e3 * m.e6 * m.e8 * m.e13 + m.e2 * m.e7 * m.e8 * m.e13
    + m.e3 * m.e4 * m.e10 * m.e13 - m.e0 * m.e7 * m.e10 * m.e13 - m.e2 * m.e4 * m.e11
    * m.e13 + m.e0 * m.e6 * m.e11 * m.e13 + m.e3 * m.e5 * m.e8 * m.e14 - m.e1 * m.e7
    * m.e8 * m.e14 - m.e3 * m.e4 * m.e9 * m.e14 + m.e0 * m.e7 * m.e9 * m.e14 + m.e1
    * m.e4 * m.e11 * m.e14 - m.e0 * m.e5 * m.e11 * m.e14 - m.e2 * m.e5 * m.e8 * m.e15
    + m.e1 * m.e6 * m.e8 * m.e15 + m.e2 * m.e4 * m.e9 * m.e15 - m.e0 * m.e6 * m.e9
    * m.e15 - m.e1 * m.e4 * m.e10 * m.e15 + m.e0 * m.e5 * m.e10 * m.e15

/-- The cofactor/adjugate write phase of `invert` (matrix4.ts lines 587-624):
the sixteen cofactors `m00..m33` are computed into locals from the
receiver's buffer `m` before any write, then `r[k]` receives its cofactor
times `idet = 1/det` (field `ek` is the store `r[k]`). -/
def invertVals (m : Buf ℚ) (idet : ℚ) : Buf ℚ :=
  let m00 := m.e9 * m.e14 * m.e7 - m.e13 * m.e10 * m.e7 + m.e13 * m.e6 * m.e11 - m.e5 * m.e14 * m.e11 - m.e9 * m.e6 * m.e15 + m.e5 * m.e10 * m.e15
  let m01 := m.e12 * m.e10 * m.e7 - m.e8 * m.e14 * m.e7 - m.e12 * m.e6 * m.e11 + m.e4 * m.e14 * m.e11 + m.e8 * m.e6 * m.e15 - m.e4 * m.e10 * m.e15
  let m02 := m.e8 * m.e13 * m.e7 - m.e12 * m.e9 * m.e7 + m.e12 * m.e5 * m.e11 - m.e4 * m.e13 * m.e11 - m.e8 * m.e5 * m.e15 + m.e4 * m.e9 * m.e15
  let m03 := m.e12 * m.e9 * m.e6 - m.e8 * m.e13 * m.e6 - m.e12 * m.e5 * m.e10 + m.e4 * m.e13 * m.e10 + m.e8 * m.e5 * m.e14 - m.e4 * m.e9 * m.e14
  let m10 := m.e13 * m.e10 * m.e3 - m.e9 * m.e14 * m.e3 - m.e13 * m.e2 * m.e11 + m.e1 * m.e14 * m.e11 + m.e9 * m.e2 * m.e15 - m.e1 * m.e10 * m.e15
  let m11 := m.e8 * m.e14 * m.e3 - m.e12 * m.e10 * m.e3 + m.e12 * m.e2 * m.e11 - m.e0 * m.e14 * m.e11 - m.e8 * m.e2 * m.e15 + m.e0 * m.e10 * m.e15
  let m12 := m.e12 * m.e9 * m.e3 - m.e8 * m.e13 * m.e3 - m.e12 * m.e1 * m.e11 + m.e0 * m.e13 * m.e11 + m.e8 * m.e1 * m.e15 - m.e0 * m.e9 * m.e15
  let m13 := m.e8 * m.e13 * m.e2 - m.e12 * m.e9 * m.e2 + m.e12 * m.e1 * m.e10 - m.e0 * m.e13 * m.e10 - m.e8 * m.e1 * m.e14 + m.e0 * m.e9 * m.e14
  let m20 := m.e5 * m.e14 * m.e3 - m.e13 * m.e6 * m.e3 + m.e13 * m.e2 * m.e7 - m.e1 * m.e14 * m.e7 - m.e5 * m.e2 * m.e15 + m.e1 * m.e6 * m.e15
  let m21 := m.e12 * m.e6 * m.e3 - m.e4 * m.e14 * m.e3 - m.e12 * m.e2 * m.e7 + m.e0 * m.e14 * m.e7 + m.e4 * m.e2 * m.e15 - m.e0 * m.e6 * m.e15
  let m22 := m.e4 * m.e13 * m.e3 - m.e12 * m.e5 * m.e3 + m.e12 * m.e1 * m.e7 - m.e0 * m.e13 * m.e7 - m.e4 * m.e1 * m.e15 + m.e0 * m.e5 * m.e15
  let m23 := m.e12 * m.e5 * m.e2 - m.e4 * m.e13 * m.e2 - m.e12 * m.e1 * m.e6 + m.e0 * m.e13 * m.e6 + m.e4 * m.e1 * m.e14 - m.e0 * m.e5 * m.e14
  let m30 := m.e9 * m.e6 * m.e3 - m.e5 * m.e10 * m.e3 - m.e9 * m.e2 * m.e7 + m.e1 * m.e10 * m.e7 + m.e5 * m.e2 * m.e11 - m.e1 * m.e6 * m.e11
  let m31 := m.e4 * m.e10 * m.e3 - m.e8 * m.e6 * m.e3 + m.e8 * m.e2 * m.e7 - m.e0 * m.e10 * m.e7 - m.e4 * m.e2 * m.e11 + m.e0 * m.e6 * m.e11
  let m32 := m.e8 * m.e5 * m.e3 - m.e4 * m.e9 * m.e3 - m.e8 * m.e1 * m.e7 + m.e0 * m.e9 * m.e7 + m.e4 * m.e1 * m.e11 - m.e0 * m.e5 * m.e11
  let m33 := m.e4 * m.e9 * m.e2 - m.e8 * m.e5 * m.e2 + m.e8 * m.e1 * m.e6 - m.e0 * m.e9 * m.e6 - m.e4 * m.e1 * m.e10 + m.e0 * m.e5 * m.e10
  ⟨m00 * idet, m10 * idet, m20 * idet, m30 * idet,
   m01 * idet, m11 * idet, m21 * idet, m31 * idet,
   m02 * idet, m12 * idet, m22 * idet, m32 * idet,
   m03 * idet, m13 * idet, m23 * idet, m33 * idet⟩

/-- `invert(optresult)` (matrix4.ts lines 578-627): reads the determinant
first and throws before touching any buffer when it is exactly `0` (strict
`===` comparison, no epsilon band); otherwise overwrites `result._val`
(`result = optresult || this`) with the cofactors — always read from
`this._val` — times `1/det`, and returns `this` (source line 626).  The
`Option String` component is the thrown error (`none` when the call
succeeds), the `Store` the post-call heap, and the `Option Nat` the
returned instance (`none` when the call threw instead of returning). -/
def invertMethod (self : Nat) (optresult : Option Nat) (σ : Store) :
    Option String × Store × Option Nat :=
  let det := determinant (σ self)
  if det = 0 then
    (some "Matrix4.invert() - cannot invert Matrix as determinant is 0", σ, none)
  else
    let result := optresult.getD self
    let m := σ self
    let idet := 1 / det
    (none, Function.update σ result (invertVals m idet), some self)

/-- `fromArray(values)` (matrix4.ts lines 508-540): throws (before touching
the buffer) when the argument has fewer than 16 elements; otherwise copies
`values[0..15]` verbatim into the receiver's buffer at the same indices and
returns the receiver.  The `Option String` component is the thrown error;
the `Buf` component is the receiver's buffer after the call. -/
def fromArray (self : Buf ℚ) (values : List ℚ) : Option String × Buf ℚ :=
  if values.length < 16 then
    (some "Matrix4.fromArray(number[]) - provided argument length must be >= 16", self)
  else
    (none,
     ⟨values.getD 0 0, values.getD 1 0, values.getD 2 0, values.getD 3 0,
      values.getD 4 0, values.getD 5 0, values.getD 6 0, values.getD 7 0,
      values.getD 8 0, values.getD 9 0, values.getD 10 0, values.getD 11 0,
      values.getD 12 0, values.getD 13 0, values.getD 14 0, values.getD 15 0⟩)

end Matrix4

namespace Buf

/-- The buffer as the flat 16-value column-major list it models
(`_val[0], ..., _val[15]`). -/
def toList (b : Buf ℚ) : List ℚ :=
  [b.e0, b.e1, b.e2, b.e3, b.e4, b.e5, b.e6, b.e7,
   b.e8, b.e9, b.e10, b.e11, b.e12, b.e13, b.e14, b.e15]

end Buf

/-- The external value type `Vector3` (vector3.ts, consumed collaborator):
three real components `x, y, z`; its in-place `set(x,y,z)` is modelled as
construction. -/
structure Vector3 where
  x : ℝ
  y : ℝ
  z : ℝ

namespace Vector3

/-- Modelled from the spec: `Vector3.len(x, y, z) = sqrt(x² + y² + z²)`, the
static magnitude helper of the `Vector3` collaborator — vector3.ts itself is
not among the given sources; §3 of the spec gives this formula. -/
noncomputable def len (x y z : ℝ) : ℝ :=
  Real.sqrt (x ^ 2 + y ^ 2 + z ^ 2)

end Vector3

/-- The external value type `Quaternion` (quaternion.ts, consumed
collaborator): four real components `x, y, z, w`; its in-place
`set(x,y,z,w)` is modelled as construction. -/
structure Quaternion where
  x : ℝ
  y : ℝ
  z : ℝ
  w : ℝ

namespace Matrix4

/-- `setToProjection(near, far, fov, aspect)` (matrix4.ts lines 116-141):
`fd = 1/tan((fov*(π/180))/2)`, `a1 = (far+near)/(near-far)`,
`a2 = (2*far*near)/(near-far)`; all 16 entries are overwritten (field `ek`
is `m[k]`), so the result does not depend on the receiver's prior buffer. -/
noncomputable def setToProjection (near far fov aspect : ℝ) : Buf ℝ :=
  let fd : ℝ := 1 / Real.tan ((fov * (Real.pi / 180)) / 2)
  let a1 : ℝ := (far + near) / (near - far)
  let a2 : ℝ := (2 * far * near) / (near - far)
  ⟨fd / aspect, 0, 0, 0, 0, fd, 0, 0, 0, 0, a1, -1, 0, 0, a2, 0⟩

/-- `composePosRotSca(position, rotation, scale)` (matrix4.ts lines 227-256):
quaternion-to-matrix formula with doubled components, each basis column
scaled by the matching component of `scale`, translation column from
`position`, bottom row `(0,0,0,1)`; all 16 entries are overwritten (field
`ek` is `m[k]`). -/
def composePosRotSca (position : Vector3) (rotation : Quaternion) (scale : Vector3) : Buf ℝ :=
  let xs := rotation.x * 2; let ys := rotation.y * 2; let zs := rotation.z * 2
  let wx := rotation.w * xs; let wy := rotation.w * ys; let wz := rotation.w * zs
  let xx := rotation.x * xs; let xy := rotation.x * ys; let xz := rotation.x * zs
  let yy := rotation.y * ys; let yz := rotation.y * zs; let zz := rotation.z * zs
  { e0 := scale.x * (1 - (yy + zz))
    e4 := scale.y * (xy - wz)
    e8 := scale.z * (xz + wy)
    e12 := position.x
    e1 := scale.x * (xy + wz)
    e5 := scale.y * (1 - (xx + zz))
    e9 := scale.z * (yz - wx)
    e13 := position.y
    e2 := scale.x * (xz - wy)
    e6 := scale.y * (yz + wx)
    e10 := scale.z * (1 - (xx + yy))
    e14 := position.z
    e3 := 0
    e7 := 0
    e11 := 0
    e15 := 1 }

/-- `decomposePosRotSca(position, rotation, scale)` (matrix4.ts lines
266-345): reads the three basis columns, takes their magnitudes as the
scale, normalises the columns by `1/magnitude`, converts the normalised
basis to a quaternion by the source's four-way trace/diagonal branch, and
copies the translation column; the out-parameters are returned as the
triple `(position, rotation, scale)`. -/
noncomputable def decomposePosRotSca (val : Buf ℝ) : Vector3 × Quaternion × Vector3 :=
  let xx := val.e0
  let xy := val.e1
  let xz := val.e2
  let yx := val.e4
  let yy := val.e5
  let yz := val.e6
  let zx := val.e8
  let zy := val.e9
  let zz := val.e10
  let sx := Vector3.len xx xy xz
  let sy := Vector3.len yx yy yz
  let sz := Vector3.len zx zy zz
  let lx := 1 / sx
  let ly := 1 / sy
  let lz := 1 / sz
  let sxx := xx * lx
  let sxy := xy * lx
  let sxz := xz * lx
  let syx := yx * ly
  let syy := yy * ly
  let syz := yz * ly
  let szx := zx * lz
  let szy := zy * lz
  let szz := zz * lz
  let t := sxx + syy + szz
  let rotation : Quaternion :=
    if 0 ≤ t then
      let s := Real.sqrt (t + 1)
      let w := 0.5 * s
      let sd := 0.5 / s
      ⟨(szy - syz) * sd, (sxz - szx) * sd, (syx - sxy) * sd, w⟩
    else if sxx > syy ∧ sxx > szz then
      let s := Real.sqrt (1 + sxx - syy - szz)
      let x := s * 0.5
      let sd := 0.5 / s
      ⟨x, (syx + sxy) * sd, (sxz + szx) * sd, (szy - syz) * sd⟩
    else if syy > szz then
      let s := Real.sqrt (1 + syy - sxx - szz)
      let y := s * 0.5
      let sd := 0.5 / s
      ⟨(syx + sxy) * sd, y, (szy + syz) * sd, (sxz - szx) * sd⟩
    else
      let s := Real.sqrt (1 + szz - sxx - syy)
      let z := s * 0.5
      let sd := 0.5 / s
      ⟨(sxz + szx) * sd, (szy + syz) * sd, z, (syx - sxy) * sd⟩
  (⟨val.e12, val.e13, val.e14⟩, rotation, ⟨sx, sy, sz⟩)

end Matrix4

end Gfx

/-- C2: for every matrix `M`, `Matrix4.deserialise(M.serialise())` produces a
matrix whose 16-entry buffer equals `M`'s buffer exactly, entry for entry:
`serialise` maps linear index `4*col+row` to field `m{row}{col}` and
`deserialise` performs the exact inverse mapping. -/
theorem C2_serialise_roundtrip (m : Gfx.Buf ℚ) :
    Gfx.Matrix4.deserialiseStatic (Gfx.Matrix4.serialise m) = m :=
  rfl

/-- C4: for every matrix `M`, calling `multiply` with the result aliased to an
operand yields the same 16 values as calling it with a fresh result:
`M.clone().multiply(M, M)` (receiver id 0 holding a clone of `M`'s buffer,
argument and result both id 1 holding `M`) leaves at id 1 the same buffer
that `M.multiply(M, fresh)` (fresh result id 2, arbitrary prior contents
`r₀`) leaves at id 2, because every output cell is computed from locally
cached operand values before any write. -/
theorem C4_aliasing_safe (M r₀ : Gfx.Buf ℚ) :
    ((Gfx.Matrix4.multiplyMethod 0 1 (some 1)
        (fun n => if n = 0 then M else if n = 1 then M else r₀)).1) 1
      = ((Gfx.Matrix4.multiplyMethod 0 1 (some 2)
        (fun n => if n = 0 then M else if n = 1 then M else r₀)).1) 2 := by
  simp [Gfx.Matrix4.multiplyMethod, Gfx.Matrix4.staticMultiply]

/-- C1 (failing-input evaluation): with receiver `M` (id 0) holding
`m[0] = 3` and a distinct fresh result `R` (id 1, identity buffer),
`M.scale(2, R)` writes `2` into `R[0]` — `R`'s own entry `1` times the
factor — instead of `6 = 3 * 2` as the claim demands, because `scale` reads
the entries it multiplies from the supplied result instance; the receiver is
left untouched and `R` is returned. -/
theorem C1_scale_reads_result_not_receiver :
    ((Gfx.Matrix4.scaleMethod 0 2 (some 1)
        (fun n => if n = 0 then ⟨3, 0, 0, 0, 0, 1, 0, 0, 0, 0, 1, 0, 0, 0, 0, 1⟩
          else Gfx.Matrix4.identityBuf)).1 1).e0 = 2 ∧
    (2 : ℚ) ≠ 3 * 2 ∧
    (Gfx.Matrix4.scaleMethod 0 2 (some 1)
        (fun n => if n = 0 then ⟨3, 0, 0, 0, 0, 1, 0, 0, 0, 0, 1, 0, 0, 0, 0, 1⟩
          else Gfx.Matrix4.identityBuf)).1 0
      = ⟨3, 0, 0, 0, 0, 1, 0, 0, 0, 0, 1, 0, 0, 0, 0, 1⟩ ∧
    (Gfx.Matrix4.scaleMethod 0 2 (some 1)
        (fun n => if n = 0 then ⟨3, 0, 0, 0, 0, 1, 0, 0, 0, 0, 1, 0, 0, 0, 0, 1⟩
          else Gfx.Matrix4.identityBuf)).2 = 1 := by
  refine ⟨?_, by norm_num, ?_, rfl⟩ <;>
    simp [Gfx.Matrix4.scaleMethod, Gfx.Matrix4.identityBuf, Function.update]

/-- C3: `invert()` raises the singular-matrix error if and only if the
receiver's determinant is exactly `0` (strict equality, no epsilon band);
and any matrix whose third row is all zero (`m[2] = m[6] = m[10] = m[14] =
0`) has determinant `0`, hence `invert()` raises on it. -/
theorem C3_invert_iff_det_zero (self : Nat) (optresult : Option Nat) (σ : Gfx.Store) :
    ((Gfx.Matrix4.invertMethod self optresult σ).1 ≠ none ↔
      Gfx.Matrix4.determinant (σ self) = 0) ∧
    (∀ b : Gfx.Buf ℚ, b.e2 = 0 → b.e6 = 0 → b.e10 = 0 → b.e14 = 0 →
      Gfx.Matrix4.determinant b = 0) := by
  constructor
  · by_cases h : Gfx.Matrix4.determinant (σ self) = 0 <;>
      simp [Gfx.Matrix4.invertMethod, h]
  · intro b h2 h6 h10 h14
    simp [Gfx.Matrix4.determinant, h2, h6, h10, h14]

/-- Witness for C3 at a concrete input: a matrix with an all-zero third row
has determinant `0` and `invert()` on it raises the error. -/
theorem C3_invert_iff_det_zero_witness :
    Gfx.Matrix4.determinant ⟨1, 2, 0, 3, 4, 5, 0, 6, 7, 8, 0, 9, 1, 2, 0, 4⟩ = 0 ∧
    (Gfx.Matrix4.invertMethod 0 none
      (fun _ => ⟨1, 2, 0, 3, 4, 5, 0, 6, 7, 8, 0, 9, 1, 2, 0, 4⟩)).1 ≠ none := by
  have h := C3_invert_iff_det_zero 0 none
    (fun _ => ⟨1, 2, 0, 3, 4, 5, 0, 6, 7, 8, 0, 9, 1, 2, 0, 4⟩)
  exact ⟨h.2 _ rfl rfl rfl rfl, h.1.mpr (h.2 _ rfl rfl rfl rfl)⟩

/-- C5: `fromArray(values)` throws the invalid-argument error when `values`
has fewer than 16 elements, leaving the receiver's buffer unchanged; with 16
or more elements it succeeds and copies exactly the first 16 values
verbatim, index `i` of `values` to buffer index `i` for `i` in `0..15`. -/
theorem C5_fromArray (values : List ℚ) (self : Gfx.Buf ℚ) :
    (values.length < 16 →
      Gfx.Matrix4.fromArray self values =
        (some "Matrix4.fromArray(number[]) - provided argument length must be >= 16", self)) ∧
    (16 ≤ values.length →
      (Gfx.Matrix4.fromArray self values).1 = none ∧
      ∀ i : Fin 16,
        (Gfx.Matrix4.fromArray self values).2.toList.getD i.val 0 = values.getD i.val 0) := by
  constructor
  · intro h
    simp [Gfx.Matrix4.fromArray, h]
  · intro h
    have h' : ¬ values.length < 16 := by omega
    refine ⟨by simp [Gfx.Matrix4.fromArray, h'], ?_⟩
    intro i
    fin_cases i <;> simp [Gfx.Matrix4.fromArray, h', Gfx.Buf.toList]

/-- Witness for C5 at concrete inputs: `fromArray([1,2,3])` (length 3)
raises and leaves the receiver (identity) unchanged; `fromArray` of 16
sequential integers succeeds and reproduces them at the same positions. -/
theorem C5_fromArray_witness :
    (Gfx.Matrix4.fromArray Gfx.Matrix4.identityBuf [1, 2, 3] =
      (some "Matrix4.fromArray(number[]) - provided argument length must be >= 16",
        Gfx.Matrix4.identityBuf)) ∧
    ((Gfx.Matrix4.fromArray Gfx.Matrix4.identityBuf
        [1, 2, 3, 4, 5, 6, 7, 8, 9, 10, 11, 12, 13, 14, 15, 16]).1 = none ∧
      ∀ i : Fin 16,
        (Gfx.Matrix4.fromArray Gfx.Matrix4.identityBuf
          [1, 2, 3, 4, 5, 6, 7, 8, 9, 10, 11, 12, 13, 14, 15, 16]).2.toList.getD i.val 0
        = [(1 : ℚ), 2, 3, 4, 5, 6, 7, 8, 9, 10, 11, 12, 13, 14, 15, 16].getD i.val 0) :=
  ⟨(C5_fromArray [1, 2, 3] Gfx.Matrix4.identityBuf).1 (by norm_num),
   (C5_fromArray [1, 2, 3, 4, 5, 6, 7, 8, 9, 10, 11, 12, 13, 14, 15, 16]
      Gfx.Matrix4.identityBuf).2 (by norm_num)⟩

/-- C8 (failing-input evaluation): `invert` does not return the mutated
instance when a result is supplied.  Receiver id 0 holds `diag(2,2,2,1)`
(determinant `8 ≠ 0`), the supplied result id 1 is the instance that gets
mutated (its entry 0 becomes `1/2`, the receiver is untouched), yet the
returned instance is id 0 — the receiver — contradicting the claim that the
supplied result is returned. -/
theorem C8_invert_returns_receiver :
    (Gfx.Matrix4.invertMethod 0 (some 1)
        (fun n => if n = 0 then ⟨2, 0, 0, 0, 0, 2, 0, 0, 0, 0, 2, 0, 0, 0, 0, 1⟩
          else Gfx.Matrix4.identityBuf)).2.2 = some 0 ∧
    ((Gfx.Matrix4.invertMethod 0 (some 1)
        (fun n => if n = 0 then ⟨2, 0, 0, 0, 0, 2, 0, 0, 0, 0, 2, 0, 0, 0, 0, 1⟩
          else Gfx.Matrix4.identityBuf)).2.1 1).e0 = 1 / 2 ∧
    (Gfx.Matrix4.invertMethod 0 (some 1)
        (fun n => if n = 0 then ⟨2, 0, 0, 0, 0, 2, 0, 0, 0, 0, 2, 0, 0, 0, 0, 1⟩
          else Gfx.Matrix4.identityBuf)).2.1 0
      = ⟨2, 0, 0, 0, 0, 2, 0, 0, 0, 0, 2, 0, 0, 0, 0, 1⟩ ∧
    (0 : Nat) ≠ 1 := by
  refine ⟨?_, ?_, ?_, by norm_num⟩ <;>
    · simp only [Gfx.Matrix4.invertMethod, Gfx.Matrix4.determinant,
        Gfx.Matrix4.invertVals, Gfx.Matrix4.identityBuf, Function.update]
      norm_num

/-- C10: when `invert` raises the singular-matrix error (determinant exactly
zero), the call leaves every buffer in the heap — the receiver's and any
supplied result's — unmodified and returns no instance: the determinant
check precedes every write. -/
theorem C10_invert_atomic_on_error (self : Nat) (optresult : Option Nat) (σ : Gfx.Store)
    (h : Gfx.Matrix4.determinant (σ self) = 0) :
    Gfx.Matrix4.invertMethod self optresult σ =
      (some "Matrix4.invert() - cannot invert Matrix as determinant is 0", σ, none) := by
  simp [Gfx.Matrix4.invertMethod, h]

/-- Witness for C10 at a concrete input: inverting the all-zero matrix with
a distinct supplied result throws and leaves the heap exactly as it was. -/
theorem C10_invert_atomic_on_error_witness :
    Gfx.Matrix4.invertMethod 0 (some 1)
        (fun n => if n = 0 then ⟨0, 0, 0, 0, 0, 0, 0, 0, 0, 0, 0, 0, 0, 0, 0, 0⟩
          else Gfx.Matrix4.identityBuf) =
      (some "Matrix4.invert() - cannot invert Matrix as determinant is 0",
        (fun n => if n = 0 then ⟨0, 0, 0, 0, 0, 0, 0, 0, 0, 0, 0, 0, 0, 0, 0, 0⟩
          else Gfx.Matrix4.identityBuf), none) :=
  C10_invert_atomic_on_error 0 (some 1) _ (by norm_num [Gfx.Matrix4.determinant])

/-- C9: for every matrix `M`, multiplying by a freshly constructed (identity)
matrix on either side leaves `M`'s values unchanged: the buffer written by
`identity().multiply(M)` is `M`, and the buffer written by
`M.multiply(identity())` is `M`, entry for entry. -/
theorem C9_identity_multiply (M : Gfx.Buf ℚ) :
    Gfx.Matrix4.multiplyVals Gfx.Matrix4.identityBuf M = M ∧
    Gfx.Matrix4.multiplyVals M Gfx.Matrix4.identityBuf = M := by
  cases M
  constructor <;> simp [Gfx.Matrix4.multiplyVals, Gfx.Matrix4.identityBuf]

/-- C6: for every `near`, `far`, `fov`, `aspect` with `tan(fov·π/360)`
nonzero and `near - far` nonzero, `setToProjection(near, far, fov, aspect)`
sets `m[0] = fd/aspect` and `m[5] = fd` where
`fd = 1/tan((fov·(π/180))/2)`, `m[10] = (far+near)/(near-far)`,
`m[11] = -1`, `m[14] = (2·far·near)/(near-far)`, `m[15] = 0`, and every
other entry to zero — so `m[0] = m[5]` when `aspect = 1`. -/
theorem C6_projection (near far fov aspect : ℝ)
    (htan : Real.tan (fov * Real.pi / 360) ≠ 0) (hnf : near - far ≠ 0) :
    (Gfx.Matrix4.setToProjection near far fov aspect).e0
        = (1 / Real.tan ((fov * (Real.pi / 180)) / 2)) / aspect ∧
    (Gfx.Matrix4.setToProjection near far fov aspect).e5
        = 1 / Real.tan ((fov * (Real.pi / 180)) / 2) ∧
    (Gfx.Matrix4.setToProjection near far fov aspect).e10 = (far + near) / (near - far) ∧
    (Gfx.Matrix4.setToProjection near far fov aspect).e11 = -1 ∧
    (Gfx.Matrix4.setToProjection near far fov aspect).e14 = (2 * far * near) / (near - far) ∧
    (Gfx.Matrix4.setToProjection near far fov aspect).e15 = 0 ∧
    (Gfx.Matrix4.setToProjection near far fov aspect).e1 = 0 ∧
    (Gfx.Matrix4.setToProjection near far fov aspect).e2 = 0 ∧
    (Gfx.Matrix4.setToProjection near far fov aspect).e3 = 0 ∧
    (Gfx.Matrix4.setToProjection near far fov aspect).e4 = 0 ∧
    (Gfx.Matrix4.setToProjection near far fov aspect).e6 = 0 ∧
    (Gfx.Matrix4.setToProjection near far fov aspect).e7 = 0 ∧
    (Gfx.Matrix4.setToProjection near far fov aspect).e8 = 0 ∧
    (Gfx.Matrix4.setToProjection near far fov aspect).e9 = 0 ∧
    (Gfx.Matrix4.setToProjection near far fov aspect).e12 = 0 ∧
    (Gfx.Matrix4.setToProjection near far fov aspect).e13 = 0 ∧
    (aspect = 1 →
      (Gfx.Matrix4.setToProjection near far fov aspect).e0
        = (Gfx.Matrix4.setToProjection near far fov aspect).e5) := by
  refine ⟨rfl, rfl, rfl, rfl, rfl, rfl, rfl, rfl, rfl, rfl, rfl, rfl, rfl, rfl, rfl, rfl, ?_⟩
  intro ha
  simp [Gfx.Matrix4.setToProjection, ha]

/-- Witness for C6 at `setToProjection(1, 100, 90, 1)`: the preconditions
hold (`tan(90·π/360) = tan(π/4) = 1 ≠ 0`, `1 - 100 ≠ 0`) and the claimed
entries follow, in particular `m[11] = -1`, `m[15] = 0` and
`m[0] = m[5]` since the aspect is `1`. -/
theorem C6_projection_witness :
    (Real.tan ((90 : ℝ) * Real.pi / 360) ≠ 0 ∧ (1 : ℝ) - 100 ≠ 0) ∧
    (Gfx.Matrix4.setToProjection 1 100 90 1).e11 = -1 ∧
    (Gfx.Matrix4.setToProjection 1 100 90 1).e15 = 0 ∧
    (Gfx.Matrix4.setToProjection 1 100 90 1).e0
      = (Gfx.Matrix4.setToProjection 1 100 90 1).e5 := by
  have htan : Real.tan ((90 : ℝ) * Real.pi / 360) ≠ 0 := by
    rw [show (90 : ℝ) * Real.pi / 360 = Real.pi / 4 by ring, Real.tan_pi_div_four]
    norm_num
  have hnf : (1 : ℝ) - 100 ≠ 0 := by norm_num
  have h := C6_projection 1 100 90 1 htan hnf
  exact ⟨⟨htan, hnf⟩, h.2.2.2.1, h.2.2.2.2.2.1,
    h.2.2.2.2.2.2.2.2.2.2.2.2.2.2.2.2 rfl⟩

/-- C7 (failing-input evaluation): the PRS round trip does not recover the
rotation up to sign.  For `p = (0,0,0)`, the unit quaternion
`q = (1/2, 1/2, 1/2, 1/2)` and the positive scale `s = (1,1,1)`,
`decomposePosRotSca(composePosRotSca(p, q, s))` recovers `p` and `s` but
yields the rotation `(-1/2, -1/2, -1/2, 1/2)` — the conjugate of `q` —
which differs from both `q` and `-q`: `decomposePosRotSca` subtracts the
off-diagonal pairs in the opposite order to the one `composePosRotSca`
writes them in. -/
theorem C7_roundtrip_conjugates_rotation :
    (((1 : ℝ) / 2) ^ 2 + ((1 : ℝ) / 2) ^ 2 + ((1 : ℝ) / 2) ^ 2 + ((1 : ℝ) / 2) ^ 2 = 1) ∧
    (Gfx.Matrix4.decomposePosRotSca
        (Gfx.Matrix4.composePosRotSca ⟨0, 0, 0⟩ ⟨1/2, 1/2, 1/2, 1/2⟩ ⟨1, 1, 1⟩)).1
      = ⟨0, 0, 0⟩ ∧
    (Gfx.Matrix4.decomposePosRotSca
        (Gfx.Matrix4.composePosRotSca ⟨0, 0, 0⟩ ⟨1/2, 1/2, 1/2, 1/2⟩ ⟨1, 1, 1⟩)).2.2
      = ⟨1, 1, 1⟩ ∧
    (Gfx.Matrix4.decomposePosRotSca
        (Gfx.Matrix4.composePosRotSca ⟨0, 0, 0⟩ ⟨1/2, 1/2, 1/2, 1/2⟩ ⟨1, 1, 1⟩)).2.1
      = ⟨-(1/2), -(1/2), -(1/2), 1/2⟩ ∧
    ((⟨-(1/2), -(1/2), -(1/2), 1/2⟩ : Gfx.Quaternion) ≠ ⟨1/2, 1/2, 1/2, 1/2⟩) ∧
    ((⟨-(1/2), -(1/2), -(1/2), 1/2⟩ : Gfx.Quaternion) ≠ ⟨-(1/2), -(1/2), -(1/2), -(1/2)⟩) := by
  have hbuf : Gfx.Matrix4.composePosRotSca ⟨0, 0, 0⟩ ⟨1/2, 1/2, 1/2, 1/2⟩ ⟨1, 1, 1⟩
      = (⟨0, 1, 0, 0, 0, 0, 1, 0, 1, 0, 0, 0, 0, 0, 0, 1⟩ : Gfx.Buf ℝ) := by
    simp only [Gfx.Matrix4.composePosRotSca]
    norm_num
  have hlen010 : Gfx.Vector3.len 0 1 0 = 1 := by
    rw [Gfx.Vector3.len, show ((0 : ℝ) ^ 2 + 1 ^ 2 + 0 ^ 2) = 1 by norm_num, Real.sqrt_one]
  have hlen001 : Gfx.Vector3.len 0 0 1 = 1 := by
    rw [Gfx.Vector3.len, show ((0 : ℝ) ^ 2 + 0 ^ 2 + 1 ^ 2) = 1 by norm_num, Real.sqrt_one]
  have hlen100 : Gfx.Vector3.len 1 0 0 = 1 := by
    rw [Gfx.Vector3.len, show ((1 : ℝ) ^ 2 + 0 ^ 2 + 0 ^ 2) = 1 by norm_num, Real.sqrt_one]
  rw [hbuf]
  refine ⟨by norm_num, ?_, ?_, ?_, ?_, ?_⟩
  · simp [Gfx.Matrix4.decomposePosRotSca]
  · simp [Gfx.Matrix4.decomposePosRotSca, hlen010, hlen001, hlen100]
  · simp only [Gfx.Matrix4.decomposePosRotSca, hlen010, hlen001, hlen100]
    norm_num [Real.sqrt_one]
  · simp only [ne_eq, Gfx.Quaternion.mk.injEq]
    norm_num
  · simp only [ne_eq, Gfx.Quaternion.mk.injEq]
    norm_num
